import Mathlib

/-!
Verification of the tile-processor core (`tile_processor/worker.py`) against
its specification. The Python source is shallowly embedded: pure string and
list manipulations become Lean functions, the subprocess and filesystem
effects become explicit parameters (a `Process` describing the spawned
process's observable behaviour, a list of paths as the filesystem), and
Python exceptions become `Except` / explicit error results.
-/

namespace TileProc

/-- Embeds Python `str.lower` (restricted, as everywhere in this development,
to the ASCII case mapping): lowercase every character of the string. -/
def strLower (s : String) : String := String.mk (s.data.map Char.toLower)

/-- Embeds the Python substring test `pat in s` on the underlying character
lists: some suffix-after-drop of `s` has `pat` as a prefix. -/
def containsSubstring (s pat : String) : Bool :=
  (List.range (s.data.length + 1)).any (fun i => pat.data.isPrefixOf (s.data.drop i))

/-- Embeds the test `"error" in err.lower()` from `run_subprocess`
(worker.py line 492). -/
def stderrHasError (err : String) : Bool :=
  containsSubstring (strLower err) "error"

/-- What `run_subprocess` hands to `psutil.Popen`: a single shell string when
`shell=True` (the command tokens joined by single spaces), otherwise the
token vector itself. -/
inductive Payload where
  | str (s : String)
  | vec (v : List String)
deriving Repr, DecidableEq

/-- The observable spawn performed by `run_subprocess`: the payload passed to
`Popen` and the `shell` flag it was passed with. -/
structure Invocation where
  payload : Payload
  shell : Bool
deriving Repr, DecidableEq

/-- Observable events of the monitoring loop: a sleep of the configured
interval, or the emission of one resource sample (`monitor_log.info`). -/
inductive Event where
  | sleepEv (interval : Nat)
  | sampleEv
deriving Repr, DecidableEq

/-- The observable behaviour of the spawned process, as far as
`run_subprocess` can see it: its final exit code, the decoded captured
stderr and stdout texts, and, for each monitoring iteration `k` (0-based),
whether `popen.poll()` at the end of iteration `k` already reports exit. -/
structure Process where
  exitCode : Int
  stderrText : String
  stdoutText : String
  exitedBy : Nat → Bool

/-- The result of one call to `run_subprocess`: the returned boolean, the
spawn that happened (if any), the ordered monitoring events, and the number
of emitted samples. -/
structure RunOutcome where
  result : Bool
  invocation : Option Invocation
  events : List Event
  samples : Nat
deriving Repr, DecidableEq

/-- Embeds the monitoring loop of `run_subprocess` (worker.py lines 477-485):
each iteration sleeps for the interval, emits one sample, then polls; the
loop exits when the poll reports an exit code. Fuel bounds the number of
iterations so the function is total; `none` means the loop was still running
after `fuel` iterations. Returns the event trace and the iteration count. -/
def monitorTrace (proc : Process) (interval : Nat) : Nat → Nat → Option (List Event × Nat)
  | 0, _ => none
  | fuel + 1, k =>
    if proc.exitedBy k then
      some ([Event.sleepEv interval, Event.sampleEv], 1)
    else
      match monitorTrace proc interval fuel (k + 1) with
      | none => none
      | some (t, n) => some ([Event.sleepEv interval, Event.sampleEv] ++ t, n + 1)

/-- Embeds `run_subprocess` (worker.py lines 447-504). With `doexec` the
command is joined; under `shell` the joined string is what is spawned. A
monitoring loop runs when a monitor logger is attached. The returned boolean
is `False` exactly when the exit code is non-zero or the lowercased captured
stderr contains "error". Without `doexec` nothing is spawned and the result
is `True`. `none` models the call not terminating within `fuel` monitor
iterations. -/
def run_subprocess (command : List String) (shell : Bool) (doexec : Bool)
    (monitorLog : Bool) (monitorInterval : Nat)
    (proc : Process) (fuel : Nat) : Option RunOutcome :=
  if doexec then
    let cmd := String.intercalate " " command
    let payload := if shell then Payload.str cmd else Payload.vec command
    let inv : Invocation := { payload := payload, shell := shell }
    let mon : Option (List Event × Nat) :=
      if monitorLog then monitorTrace proc monitorInterval fuel 0 else some ([], 0)
    match mon with
    | none => none
    | some (evs, n) =>
      let failed : Bool := (proc.exitCode != 0) || stderrHasError proc.stderrText
      some { result := !failed, invocation := some inv, events := evs, samples := n }
  else
    some { result := true, invocation := none, events := [], samples := 0 }

/-- C1: with execution enabled, a terminating `run_subprocess` returns False
iff the exit code is non-zero or the captured stderr contains "error"
case-insensitively; in every other terminating case it returns True. -/
theorem c1_outcome_classification (command : List String) (shell monitorLog : Bool)
    (monitorInterval : Nat) (proc : Process) (fuel : Nat) (out : RunOutcome)
    (h : run_subprocess command shell true monitorLog monitorInterval proc fuel = some out) :
    out.result = false ↔ (proc.exitCode ≠ 0 ∨ stderrHasError proc.stderrText = true) := by
  unfold run_subprocess at h
  simp only [if_true] at h
  cases hmon : (if monitorLog then monitorTrace proc monitorInterval fuel 0
      else some (([] : List Event), 0)) with
  | none => rw [hmon] at h; exact absurd h (by simp)
  | some p =>
    rw [hmon] at h
    obtain ⟨evs, n⟩ := p
    simp only [Option.some.injEq] at h
    subst h
    simp only [Bool.not_eq_false', Bool.or_eq_true, bne_iff_ne, ne_eq]

/-- Witness for C1 at a concrete input: exit code 0 but stderr text
"An ERROR occurred", classified as failure. -/
theorem c1_outcome_classification_witness :
    ({ result := false,
       invocation := some { payload := Payload.vec ["3dfier", "cfg.yml"], shell := false },
       events := [], samples := 0 } : RunOutcome).result = false ↔
      ((0 : Int) ≠ 0 ∨ stderrHasError "An ERROR occurred" = true) :=
  c1_outcome_classification ["3dfier", "cfg.yml"] false false 5
    { exitCode := 0, stderrText := "An ERROR occurred", stdoutText := "",
      exitedBy := fun _ => true } 1
    { result := false,
      invocation := some { payload := Payload.vec ["3dfier", "cfg.yml"], shell := false },
      events := [], samples := 0 }
    (by decide)

/-- C7: with execution disabled, `run_subprocess` spawns no process, emits no
monitoring events, and returns True, for every command and every setting of
the other parameters. -/
theorem c7_dry_run (command : List String) (shell monitorLog : Bool)
    (monitorInterval : Nat) (proc : Process) (fuel : Nat) :
    run_subprocess command shell false monitorLog monitorInterval proc fuel =
      some { result := true, invocation := none, events := [], samples := 0 } := rfl

/-- C9: with execution enabled and shell mode selected, the spawned payload
is the single string obtained by joining the command tokens with single
spaces, not the token vector; consequently a token containing a space yields
the same payload as the two separate tokens it splits into. -/
theorem c9_shell_join (command : List String) (monitorLog : Bool)
    (monitorInterval : Nat) (proc : Process) (fuel : Nat) (out : RunOutcome)
    (h : run_subprocess command true true monitorLog monitorInterval proc fuel = some out) :
    out.invocation =
      some { payload := Payload.str (String.intercalate " " command), shell := true } ∧
      String.intercalate " " ["a b"] = String.intercalate " " ["a", "b"] := by
  refine ⟨?_, rfl⟩
  unfold run_subprocess at h
  simp only [if_true] at h
  cases hmon : (if monitorLog then monitorTrace proc monitorInterval fuel 0
      else some (([] : List Event), 0)) with
  | none => rw [hmon] at h; exact absurd h (by simp)
  | some p =>
    rw [hmon] at h
    obtain ⟨evs, n⟩ := p
    simp only [Option.some.injEq] at h
    subst h
    rfl

/-- Witness for C9 at a concrete input. -/
theorem c9_shell_join_witness :
    ({ result := true,
       invocation := some { payload := Payload.str "3dfier t.yml", shell := true },
       events := [], samples := 0 } : RunOutcome).invocation =
        some { payload := Payload.str (String.intercalate " " ["3dfier", "t.yml"]),
               shell := true } ∧
      String.intercalate " " ["a b"] = String.intercalate " " ["a", "b"] :=
  c9_shell_join ["3dfier", "t.yml"] false 5
    { exitCode := 0, stderrText := "", stdoutText := "", exitedBy := fun _ => true } 1
    { result := true,
      invocation := some { payload := Payload.str "3dfier t.yml", shell := true },
      events := [], samples := 0 }
    (by decide)

/-- Concrete process for witnesses: exits only from monitoring iteration 1
on (so the first poll still sees it running). -/
def procLate : Process :=
  { exitCode := 0, stderrText := "", stdoutText := "", exitedBy := fun k => Nat.ble 1 k }

/-- Concrete process for witnesses: already exited before the first sample. -/
def procDone : Process :=
  { exitCode := 0, stderrText := "", stdoutText := "", exitedBy := fun _ => true }

/-- Structure of a terminating monitoring loop: it runs at least one
iteration, the poll at its last iteration reports exit, every earlier poll
reported the process still running, and the event trace is one sleep of the
configured interval followed by one sample, per iteration. -/
theorem monitorTrace_spec (proc : Process) (interval : Nat) :
    ∀ fuel k evs n, monitorTrace proc interval fuel k = some (evs, n) →
      1 ≤ n ∧ proc.exitedBy (k + (n - 1)) = true ∧
      (∀ j, j < n - 1 → proc.exitedBy (k + j) = false) ∧
      evs = (List.replicate n [Event.sleepEv interval, Event.sampleEv]).flatten := by
  intro fuel
  induction fuel with
  | zero =>
    intro k evs n h
    exact absurd h (by simp [monitorTrace])
  | succ f ih =>
    intro k evs n h
    unfold monitorTrace at h
    by_cases hex : proc.exitedBy k = true
    · rw [if_pos hex] at h
      simp only [Option.some.injEq, Prod.mk.injEq] at h
      obtain ⟨hevs, hn⟩ := h
      subst hevs; subst hn
      refine ⟨le_refl 1, by simpa using hex, ?_, by simp⟩
      intro j hj
      exact absurd hj (by omega)
    · rw [if_neg hex] at h
      cases hrec : monitorTrace proc interval f (k + 1) with
      | none => rw [hrec] at h; exact absurd h (by simp)
      | some p =>
        rw [hrec] at h
        obtain ⟨t, m⟩ := p
        simp only [Option.some.injEq, Prod.mk.injEq] at h
        obtain ⟨hevs, hn⟩ := h
        subst hevs; subst hn
        obtain ⟨hm1, hmex, hmrun, ht⟩ := ih (k + 1) t m hrec
        refine ⟨by omega, ?_, ?_, ?_⟩
        · have harith : k + 1 + (m - 1) = k + (m + 1 - 1) := by omega
          rw [harith] at hmex
          exact hmex
        · intro j hj
          cases j with
          | zero =>
            have hfalse : proc.exitedBy k = false := by
              cases hb : proc.exitedBy k
              · rfl
              · exact absurd hb hex
            simpa using hfalse
          | succ i =>
            have hi : i < m - 1 := by omega
            have hstep := hmrun i hi
            have harith : k + 1 + i = k + (i + 1) := by omega
            rw [harith] at hstep
            exact hstep
        · rw [ht]
          simp [List.replicate_succ]

/-- C6: whenever `run_subprocess` executes a command with a monitor logger
attached and terminates, the monitoring loop ran at least once, sampled at
the fixed interval on every iteration, stopped exactly when the poll first
reported exit, and never stopped after a sample taken while the process was
still running. -/
theorem c6_poll_until_exit (command : List String) (shell : Bool)
    (monitorInterval : Nat) (proc : Process) (fuel : Nat) (out : RunOutcome)
    (h : run_subprocess command shell true true monitorInterval proc fuel = some out) :
    1 ≤ out.samples ∧ proc.exitedBy (out.samples - 1) = true ∧
      (∀ j, j < out.samples - 1 → proc.exitedBy j = false) ∧
      out.events =
        (List.replicate out.samples [Event.sleepEv monitorInterval, Event.sampleEv]).flatten := by
  unfold run_subprocess at h
  simp only [if_true] at h
  cases hmon : monitorTrace proc monitorInterval fuel 0 with
  | none => rw [hmon] at h; exact absurd h (by simp)
  | some p =>
    rw [hmon] at h
    obtain ⟨evs, n⟩ := p
    simp only [Option.some.injEq] at h
    subst h
    obtain ⟨h1, h2, h3, h4⟩ := monitorTrace_spec proc monitorInterval fuel 0 evs n hmon
    exact ⟨h1, by simpa using h2, fun j hj => by simpa using h3 j hj, h4⟩

/-- Witness for C6: a process that is still running at the first poll and has
exited by the second; the loop emits two samples and stops at the second. -/
theorem c6_poll_until_exit_witness :
    1 ≤ ({ result := true,
           invocation := some { payload := Payload.str "sh run", shell := true },
           events := [Event.sleepEv 7, Event.sampleEv, Event.sleepEv 7, Event.sampleEv],
           samples := 2 } : RunOutcome).samples ∧
      procLate.exitedBy
        (({ result := true,
            invocation := some { payload := Payload.str "sh run", shell := true },
            events := [Event.sleepEv 7, Event.sampleEv, Event.sleepEv 7, Event.sampleEv],
            samples := 2 } : RunOutcome).samples - 1) = true :=
  ⟨(c6_poll_until_exit ["sh", "run"] true 7 procLate 2
      { result := true,
        invocation := some { payload := Payload.str "sh run", shell := true },
        events := [Event.sleepEv 7, Event.sampleEv, Event.sleepEv 7, Event.sampleEv],
        samples := 2 } (by decide)).1,
   (c6_poll_until_exit ["sh", "run"] true 7 procLate 2
      { result := true,
        invocation := some { payload := Payload.str "sh run", shell := true },
        events := [Event.sleepEv 7, Event.sampleEv, Event.sleepEv 7, Event.sampleEv],
        samples := 2 } (by decide)).2.1⟩

/-- C10: with execution enabled and a monitor logger attached, a terminating
`run_subprocess` emits at least one monitoring record, and the first event of
the monitoring loop is a sleep of one full interval, before the first
sample — for every process, including one that exited before that sample. -/
theorem c10_sleep_before_first_sample (command : List String) (shell : Bool)
    (monitorInterval : Nat) (proc : Process) (fuel : Nat) (out : RunOutcome)
    (h : run_subprocess command shell true true monitorInterval proc fuel = some out) :
    1 ≤ out.samples ∧ out.events.head? = some (Event.sleepEv monitorInterval) := by
  unfold run_subprocess at h
  simp only [if_true] at h
  cases hmon : monitorTrace proc monitorInterval fuel 0 with
  | none => rw [hmon] at h; exact absurd h (by simp)
  | some p =>
    rw [hmon] at h
    obtain ⟨evs, n⟩ := p
    simp only [Option.some.injEq] at h
    subst h
    obtain ⟨h1, _, _, h4⟩ := monitorTrace_spec proc monitorInterval fuel 0 evs n hmon
    refine ⟨h1, ?_⟩
    obtain ⟨m, hm⟩ : ∃ m, n = m + 1 := ⟨n - 1, by omega⟩
    subst hm
    simp only [h4, List.replicate_succ, List.flatten]
    rfl

/-- Witness for C10: a process that has already exited before the first
sample still yields one sleep of the full interval followed by one sample. -/
theorem c10_sleep_before_first_sample_witness :
    1 ≤ ({ result := true,
           invocation := some { payload := Payload.vec ["gf"], shell := false },
           events := [Event.sleepEv 5, Event.sampleEv],
           samples := 1 } : RunOutcome).samples ∧
      ({ result := true,
         invocation := some { payload := Payload.vec ["gf"], shell := false },
         events := [Event.sleepEv 5, Event.sampleEv],
         samples := 1 } : RunOutcome).events.head? = some (Event.sleepEv 5) :=
  c10_sleep_before_first_sample ["gf"] false 5 procDone 1
    { result := true,
      invocation := some { payload := Payload.vec ["gf"], shell := false },
      events := [Event.sleepEv 5, Event.sampleEv],
      samples := 1 } (by decide)

/-- Python exceptions that the worker code can raise, by class. -/
inductive PyErr where
  | indexError
  | typeError
  | attributeError
deriving Repr, DecidableEq

/-- Database connection parameters (`dbtilesahn.conn`); an empty password
models a falsy `conn.password` (None or ""). -/
structure Conn where
  dbname : String
  host : String
  port : String
  user : String
  password : String
deriving Repr, DecidableEq

/-- Directory output sink (`tiles.output.dir`), exposing only its
`join_path` capability. -/
structure DirOutput where
  joinPath : String → String

/-- Database output sink (`tiles.output.db`), exposing only its DSN. -/
structure DbOutput where
  dsn : String
deriving Repr, DecidableEq

/-- The output target of a run: at most one of a directory sink and a
database sink. -/
structure Output where
  dir : Option DirOutput
  db : Option DbOutput

/-- The slice of the `DbTilesAHN` tile-configuration object that the workers
read: connection, schema and unique-id field names, the per-tile feature
view name, the per-tile elevation (AHN) file index with (path, version)
entries, and the output target. -/
structure DbTilesAHN where
  conn : Conn
  schemaTiles : String
  uniqueidField : String
  featureViews : String → String
  elevationFileIndex : String → List (String × Nat)
  output : Output

/-- Embeds the `ahn_file` accumulation of `ThreedfierWorker.create_yaml`
(worker.py lines 113-118) and, identically, of
`ThreedfierTINWorker.create_yaml` (lines 244-249). With more than one entry
each path is formatted as a YAML list item. Otherwise the code evaluates
`"- " + ahn_paths[0]`: on an empty list the subscript raises IndexError, and
on a singleton list the element is a (path, version) pair, so concatenating
it to a string raises TypeError. -/
def ahnFileBlock : List (String × Nat) → Except PyErr String
  | [] => Except.error PyErr.indexError
  | [_] => Except.error PyErr.typeError
  | ps => Except.ok
      (ps.foldl (fun acc pv => acc ++ "- " ++ pv.1 ++ "\n" ++ "              ") "")

/-- Embeds the PostGIS DSN construction shared verbatim by both `create_yaml`
methods (worker.py lines 121-141 and 251-271): the password component is
present exactly when `conn.password` is truthy. -/
def pgDsn (tiles : DbTilesAHN) (tile : String) : String :=
  if tiles.conn.password ≠ "" then
    "PG:dbname=" ++ tiles.conn.dbname ++ " host=" ++ tiles.conn.host ++
      " port=" ++ tiles.conn.port ++ " user=" ++ tiles.conn.user ++
      " password=" ++ tiles.conn.password ++ " schemas=" ++ tiles.schemaTiles ++
      " tables=" ++ tiles.featureViews tile
  else
    "PG:dbname=" ++ tiles.conn.dbname ++ " host=" ++ tiles.conn.host ++
      " port=" ++ tiles.conn.port ++ " user=" ++ tiles.conn.user ++
      " schemas=" ++ tiles.schemaTiles ++ " tables=" ++ tiles.featureViews tile

/-- Embeds the classification-code selection of
`ThreedfierWorker.create_yaml` (worker.py lines 143-150): the chain of set
comparisons on `ahn_version`, with `None` (no filter) as the fallback. -/
def lasBuilding (ahnVersion : Finset Nat) : Option (List Nat) :=
  if ahnVersion = {2} then some [1]
  else if ahnVersion = {3} then some [6]
  else if ahnVersion = ({2, 3} : Finset Nat) then some [1, 6]
  else none

/-- The fields of the YAML document that `ThreedfierWorker.create_yaml`
interpolates into its fixed template (worker.py lines 153-182); the template
constants are carried as literal fields. -/
structure YamlConfig where
  dsn : String
  uniqueid : String
  lifting : String
  roofUseLasClasses : Option (List Nat)
  groundUseLasClasses : List Nat
  ahnFile : String
  thinning : Nat
  buildingRadiusVertexElevation : String
  radiusVertexElevation : String
  thresholdJumpEdges : String
deriving Repr, DecidableEq

/-- Embeds `ThreedfierWorker.create_yaml` (worker.py lines 111-183): build
the elevation-file block (which can raise), collect the version set, build
the DSN, select the classification codes, and fill the fixed template. -/
def ThreedfierWorker.create_yaml (tile : String) (tiles : DbTilesAHN)
    (ahnPaths : List (String × Nat)) : Except PyErr YamlConfig :=
  match ahnFileBlock ahnPaths with
  | Except.error e => Except.error e
  | Except.ok ahnFile =>
    let ahnVersion : Finset Nat := (ahnPaths.map Prod.snd).toFinset
    Except.ok
      { dsn := pgDsn tiles tile
        uniqueid := tiles.uniqueidField
        lifting := "Building"
        roofUseLasClasses := lasBuilding ahnVersion
        groundUseLasClasses := [2]
        ahnFile := ahnFile
        thinning := 0
        buildingRadiusVertexElevation := "0.5"
        radiusVertexElevation := "0.5"
        thresholdJumpEdges := "0.5" }

/-- The fields of the YAML document that `ThreedfierTINWorker.create_yaml`
interpolates into its fixed Terrain template (worker.py lines 276-303). -/
structure YamlTinConfig where
  dsn : String
  uniqueid : String
  lifting : String
  simplificationTinsimp : String
  innerBuffer : String
  useLasClasses : List Nat
  ahnFile : String
  thinning : Nat
deriving Repr, DecidableEq

/-- Embeds `ThreedfierTINWorker.create_yaml` (worker.py lines 242-304): same
elevation-file block and DSN as the surface variant, no classification-code
selection, `tinsimp` stringified into the template. -/
def ThreedfierTINWorker.create_yaml (tile : String) (tiles : DbTilesAHN)
    (ahnPaths : List (String × Nat)) (tinsimp : String) :
    Except PyErr YamlTinConfig :=
  match ahnFileBlock ahnPaths with
  | Except.error e => Except.error e
  | Except.ok ahnFile =>
    Except.ok
      { dsn := pgDsn tiles tile
        uniqueid := tiles.uniqueidField
        lifting := "Terrain"
        simplificationTinsimp := tinsimp
        innerBuffer := "0.1"
        useLasClasses := [2]
        ahnFile := ahnFile
        thinning := 0 }

/-- How a `Worker.execute` call ends: a returned boolean, or a Python
exception escaping the call. -/
inductive ExecResult where
  | ret (b : Bool)
  | raise (e : PyErr)
deriving Repr, DecidableEq

/-- The arguments a worker passes to `run_subprocess`: the command tokens
and the `shell` / `doexec` flags. -/
structure RunnerCall where
  command : List String
  shell : Bool
  doexec : Bool
deriving Repr, DecidableEq

/-- How the subprocess runner behaves when the worker invokes it: it returns
True, returns False, or raises. -/
inductive RunnerOutcome where
  | success
  | failure
  | raises
deriving Repr, DecidableEq

/-- Everything observable about one `Worker.execute` call: how it ended, the
filesystem it left behind, and the runner invocation it made (if any). -/
structure ExecState where
  result : ExecResult
  fs : List String
  call : Option RunnerCall
deriving Repr, DecidableEq

/-- Filesystem as a list of present paths: `open(p, "w")` makes `p`
present. -/
def writePath (fs : List String) (p : String) : List String :=
  if p ∈ fs then fs else p :: fs

/-- `os.remove(p)` deletes `p` when present; when absent the raised
FileNotFoundError is caught by the surrounding `except` (worker.py lines
235-238), leaving the filesystem unchanged — in both cases `p` is absent
afterwards. -/
def removePath (fs : List String) (p : String) : List String :=
  fs.filter (fun q => q ≠ p)

/-- Embeds `ThreedfierWorker.execute` (worker.py lines 185-238). An empty
elevation index returns False at once. Otherwise `create_yaml` runs (it can
raise), the YAML artifact is written next to the output, 3dfier is invoked
with `shell=True, doexec=True`, a raising runner is caught and turned into
False, and the `finally` block removes the artifact. `tiles.output.dir`
being absent raises AttributeError before the `try`. The unused
`ignoreDoexec` argument models a caller-supplied `doexec` swallowed by
`**ignore`. -/
def ThreedfierWorker.execute (tile : String) (tiles : DbTilesAHN)
    (pathExecutable : String) (ignoreDoexec : Bool)
    (runner : RunnerOutcome) (fs : List String) : ExecState :=
  let _ := ignoreDoexec
  if (tiles.elevationFileIndex tile).length = 0 then
    { result := ExecResult.ret false, fs := fs, call := none }
  else
    match ThreedfierWorker.create_yaml tile tiles (tiles.elevationFileIndex tile) with
    | Except.error e => { result := ExecResult.raise e, fs := fs, call := none }
    | Except.ok _ =>
      match tiles.output.dir with
      | none => { result := ExecResult.raise PyErr.attributeError, fs := fs, call := none }
      | some d =>
        let ymlPath := d.joinPath (tile ++ ".yml")
        let outputPath := d.joinPath (tile ++ ".csv")
        let command :=
          [pathExecutable, ymlPath, "--stat_RMSE", "--CSV-BUILDINGS-MULTIPLE", outputPath]
        let result : ExecResult :=
          match runner with
          | RunnerOutcome.success => ExecResult.ret true
          | RunnerOutcome.failure => ExecResult.ret false
          | RunnerOutcome.raises => ExecResult.ret false
        { result := result
          fs := removePath (writePath fs ymlPath) ymlPath
          call := some { command := command, shell := true, doexec := true } }

/-- Embeds `ThreedfierTINWorker.execute` (worker.py lines 306-356): the same
shape as the surface variant with the TIN `create_yaml`, the caller-chosen
output format and extension in the command, and the same hard-coded
`shell=True, doexec=True` invocation and `finally` cleanup. -/
def ThreedfierTINWorker.execute (tile : String) (tiles : DbTilesAHN)
    (tinsimp : String) (outFormat : String) (outFormatExt : String)
    (pathExecutable : String) (ignoreDoexec : Bool)
    (runner : RunnerOutcome) (fs : List String) : ExecState :=
  let _ := ignoreDoexec
  if (tiles.elevationFileIndex tile).length = 0 then
    { result := ExecResult.ret false, fs := fs, call := none }
  else
    match ThreedfierTINWorker.create_yaml tile tiles
        (tiles.elevationFileIndex tile) tinsimp with
    | Except.error e => { result := ExecResult.raise e, fs := fs, call := none }
    | Except.ok _ =>
      match tiles.output.dir with
      | none => { result := ExecResult.raise PyErr.attributeError, fs := fs, call := none }
      | some d =>
        let ymlPath := d.joinPath (tile ++ ".yml")
        let outputPath := d.joinPath (tile ++ "." ++ outFormatExt)
        let command := [pathExecutable, ymlPath, outFormat, outputPath]
        let result : ExecResult :=
          match runner with
          | RunnerOutcome.success => ExecResult.ret true
          | RunnerOutcome.failure => ExecResult.ret false
          | RunnerOutcome.raises => ExecResult.ret false
        { result := result
          fs := removePath (writePath fs ymlPath) ymlPath
          call := some { command := command, shell := true, doexec := true } }

/-- Embeds `Geoflow.execute` (worker.py lines 364-409), parametric in the
subclass's `create_configuration` (which may raise, or return `none` as the
base class's `pass` does). An empty elevation index returns False at once; a
missing or empty configuration returns False without invoking the runner;
otherwise the runner is invoked with `shell=False` and the caller-supplied
`doexec`, and a raising runner is caught and turned into False. -/
def Geoflow.execute
    (createConfiguration : String → DbTilesAHN → Except PyErr (Option (List String)))
    (tile : String) (tiles : DbTilesAHN)
    (pathExecutable : String) (pathFlowchart : String) (doexec : Bool)
    (runner : RunnerOutcome) (fs : List String) : ExecState :=
  if (tiles.elevationFileIndex tile).length = 0 then
    { result := ExecResult.ret false, fs := fs, call := none }
  else
    match createConfiguration tile tiles with
    | Except.error e => { result := ExecResult.raise e, fs := fs, call := none }
    | Except.ok none => { result := ExecResult.ret false, fs := fs, call := none }
    | Except.ok (some config) =>
      if 0 < config.length then
        let command := [pathExecutable, pathFlowchart] ++ config
        let result : ExecResult :=
          match runner with
          | RunnerOutcome.success => ExecResult.ret true
          | RunnerOutcome.failure => ExecResult.ret false
          | RunnerOutcome.raises => ExecResult.ret false
        { result := result, fs := fs
          call := some { command := command, shell := false, doexec := doexec } }
      else
        { result := ExecResult.ret false, fs := fs, call := none }

/-- Concrete directory sink for concrete evaluations. -/
def sampleDir : DirOutput := { joinPath := fun f => "/out/" ++ f }

/-- Concrete connection for concrete evaluations. -/
def sampleConn : Conn :=
  { dbname := "bag", host := "localhost", port := "5432", user := "me", password := "" }

/-- Concrete tile configuration whose elevation-file index maps every tile to
the given entry list. -/
def tilesWith (idx : List (String × Nat)) : DbTilesAHN :=
  { conn := sampleConn
    schemaTiles := "tiles"
    uniqueidField := "gid"
    featureViews := fun t => "bag_" ++ t
    elevationFileIndex := fun _ => idx
    output := { dir := some sampleDir, db := none } }

/-- With at least two elevation entries the `ahn_file` block (and hence both
`create_yaml` methods up to that point) completes without raising. -/
theorem create_yaml_ok_of_two_le (tile : String) (tiles : DbTilesAHN)
    (ps : List (String × Nat)) (h : 2 ≤ ps.length) :
    ∃ y, ThreedfierWorker.create_yaml tile tiles ps = Except.ok y ∧
      y.roofUseLasClasses = lasBuilding ((ps.map Prod.snd).toFinset) := by
  match ps with
  | [] => exact absurd h (by decide)
  | [a] => simp at h
  | a :: b :: t => exact ⟨_, rfl, rfl⟩

/-- TIN variant of `create_yaml_ok_of_two_le`. -/
theorem tin_create_yaml_ok_of_two_le (tile : String) (tiles : DbTilesAHN)
    (ps : List (String × Nat)) (tinsimp : String) (h : 2 ≤ ps.length) :
    ∃ y, ThreedfierTINWorker.create_yaml tile tiles ps tinsimp = Except.ok y := by
  match ps with
  | [] => exact absurd h (by decide)
  | [a] => simp at h
  | a :: b :: t => exact ⟨_, rfl⟩

/-- After `removePath` the removed path is never present. -/
theorem removePath_not_mem (fs : List String) (p : String) : p ∉ removePath fs p := by
  simp [removePath]

/-- C2 counterexample: `create_yaml`, given the empty elevation list (the
empty version set) raises IndexError, and given a singleton list raises
TypeError — neither yields a configuration with no classification filter. -/
theorem c2_counterexample :
    ThreedfierWorker.create_yaml "t0" (tilesWith []) [] =
        Except.error PyErr.indexError ∧
      ThreedfierWorker.create_yaml "t0" (tilesWith [("/d/a.las", 2)])
          [("/d/a.las", 2)] =
        Except.error PyErr.typeError :=
  ⟨rfl, rfl⟩

/-- C2 (amended): for every elevation list with at least two entries,
`create_yaml` completes and its classification-code selection is a function
of exactly the set of versions in the list; that selection maps the version
set to the codes [1] for set 2, [6] for set 3, [1, 6] for set 2-and-3, and
to no classification filter for every other version set. On empty and
singleton lists `create_yaml` instead raises before selecting codes. -/
theorem c2_classification_of_version_set (tile : String) (tiles : DbTilesAHN)
    (ps : List (String × Nat)) (h : 2 ≤ ps.length) :
    (∃ y, ThreedfierWorker.create_yaml tile tiles ps = Except.ok y ∧
        y.roofUseLasClasses = lasBuilding ((ps.map Prod.snd).toFinset)) ∧
      lasBuilding {2} = some [1] ∧
      lasBuilding {3} = some [6] ∧
      lasBuilding ({2, 3} : Finset Nat) = some [1, 6] ∧
      ∀ s : Finset Nat, s ≠ {2} → s ≠ {3} → s ≠ ({2, 3} : Finset Nat) →
        lasBuilding s = none := by
  refine ⟨create_yaml_ok_of_two_le tile tiles ps h, by decide, by decide, by decide, ?_⟩
  intro s h1 h2 h3
  simp [lasBuilding, h1, h2, h3]

/-- Witness for C2 (amended) at a concrete two-entry list of version 2. -/
theorem c2_classification_of_version_set_witness :
    2 ≤ ([("/d/a.las", 2), ("/d/b.las", 2)] : List (String × Nat)).length ∧
      lasBuilding {2} = some [1] :=
  ⟨by decide,
   (c2_classification_of_version_set "t1" (tilesWith [("/d/a.las", 2), ("/d/b.las", 2)])
      [("/d/a.las", 2), ("/d/b.las", 2)] (by decide)).2.1⟩

/-- C3: once `execute` reaches the configuration-serialization step (the
elevation list has at least two entries so `create_yaml` completes, and a
directory output is configured), the per-tile `<tile>.yml` artifact is
absent from the filesystem after `execute` returns, for every runner
outcome — success, failure, or the runner raising. -/
theorem c3_ephemeral_config_removed (tile : String) (tiles : DbTilesAHN) (d : DirOutput)
    (pathExecutable tinsimp outFormat outFormatExt : String) (ignoreDoexec : Bool)
    (runner : RunnerOutcome) (fs : List String)
    (hlen : 2 ≤ (tiles.elevationFileIndex tile).length)
    (hdir : tiles.output.dir = some d) :
    d.joinPath (tile ++ ".yml") ∉
        (ThreedfierWorker.execute tile tiles pathExecutable ignoreDoexec runner fs).fs ∧
      d.joinPath (tile ++ ".yml") ∉
        (ThreedfierTINWorker.execute tile tiles tinsimp outFormat outFormatExt
          pathExecutable ignoreDoexec runner fs).fs := by
  have h0 : ¬((tiles.elevationFileIndex tile).length = 0) := by omega
  obtain ⟨y, hy, _⟩ :=
    create_yaml_ok_of_two_le tile tiles (tiles.elevationFileIndex tile) hlen
  obtain ⟨z, hz⟩ :=
    tin_create_yaml_ok_of_two_le tile tiles (tiles.elevationFileIndex tile) tinsimp hlen
  constructor
  · simp only [ThreedfierWorker.execute, if_neg h0, hy, hdir]
    exact removePath_not_mem _ _
  · simp only [ThreedfierTINWorker.execute, if_neg h0, hz, hdir]
    exact removePath_not_mem _ _

/-- Witness for C3 at a concrete two-entry configuration with a raising
runner. -/
theorem c3_ephemeral_config_removed_witness :
    sampleDir.joinPath ("t1" ++ ".yml") ∉
      (ThreedfierWorker.execute "t1" (tilesWith [("/d/a.las", 2), ("/d/b.las", 3)])
        "3dfier" false RunnerOutcome.raises ["/out/other"]).fs :=
  (c3_ephemeral_config_removed "t1" (tilesWith [("/d/a.las", 2), ("/d/b.las", 3)])
      sampleDir "3dfier" "0.1" "CSV" "csv" false RunnerOutcome.raises ["/out/other"]
      (by decide) rfl).1

/-- C4: a tile whose elevation-file index entry is empty makes `execute`
return False immediately, with the filesystem untouched and no invocation of
the subprocess runner, for the 3dfier surface worker, the 3dfier TIN worker,
and the Geoflow variants alike. -/
theorem c4_empty_index_skips (tile : String) (tiles : DbTilesAHN)
    (pathExecutable tinsimp outFormat outFormatExt pathFlowchart : String)
    (ignoreDoexec doexec : Bool) (runner : RunnerOutcome) (fs : List String)
    (createConfiguration : String → DbTilesAHN → Except PyErr (Option (List String)))
    (h : tiles.elevationFileIndex tile = []) :
    ThreedfierWorker.execute tile tiles pathExecutable ignoreDoexec runner fs =
        { result := ExecResult.ret false, fs := fs, call := none } ∧
      ThreedfierTINWorker.execute tile tiles tinsimp outFormat outFormatExt
          pathExecutable ignoreDoexec runner fs =
        { result := ExecResult.ret false, fs := fs, call := none } ∧
      Geoflow.execute createConfiguration tile tiles pathExecutable pathFlowchart
          doexec runner fs =
        { result := ExecResult.ret false, fs := fs, call := none } := by
  refine ⟨?_, ?_, ?_⟩ <;>
    simp [ThreedfierWorker.execute, ThreedfierTINWorker.execute, Geoflow.execute, h]

/-- Witness for C4 at a concrete empty elevation index. -/
theorem c4_empty_index_skips_witness :
    (tilesWith []).elevationFileIndex "t9" = [] ∧
      ThreedfierWorker.execute "t9" (tilesWith []) "3dfier" false
          RunnerOutcome.success ["/out/x"] =
        { result := ExecResult.ret false, fs := ["/out/x"], call := none } :=
  ⟨rfl,
   (c4_empty_index_skips "t9" (tilesWith []) "3dfier" "0.1" "CSV" "csv" "chart.json"
      false true RunnerOutcome.success ["/out/x"] (fun _ _ => Except.ok none) rfl).1⟩

/-- C5: evaluation of the code at the failing input. A tile with exactly one
matched elevation entry passes the dataset check, but `create_yaml` then
evaluates the string-plus-tuple concatenation and raises TypeError, so
`execute` raises instead of returning a per-tile boolean. -/
theorem c5_singleton_elevation_raises :
    (ThreedfierWorker.execute "t1" (tilesWith [("/d/a.las", 2)]) "3dfier" false
        RunnerOutcome.success []).result = ExecResult.raise PyErr.typeError ∧
      (ThreedfierTINWorker.execute "t1" (tilesWith [("/d/a.las", 2)]) "0.1" "CSV"
          "csv" "3dfier" false RunnerOutcome.success []).result =
        ExecResult.raise PyErr.typeError :=
  ⟨rfl, rfl⟩

/-- C8 counterexample: a tile with a singleton elevation list passes the
dataset check, yet `ThreedfierWorker.execute` never invokes the subprocess
runner (the configuration build raises first), refuting the claim that every
tile passing the check leads to an invocation. -/
theorem c8_counterexample :
    ((tilesWith [("/d/a.las", 2)]).elevationFileIndex "t1").length ≠ 0 ∧
      (ThreedfierWorker.execute "t1" (tilesWith [("/d/a.las", 2)]) "3dfier" false
        RunnerOutcome.success []).call = none :=
  ⟨by decide, rfl⟩

/-- C8 (amended): whenever `ThreedfierWorker.execute` or
`ThreedfierTINWorker.execute` processes a tile that passes the dataset check
and whose configuration build completes (at least two elevation entries and
a directory output), it invokes the subprocess runner with execution enabled
and shell interpretation (`doexec=True, shell=True`), regardless of any
caller-supplied parameters; dry-run and argument-vector invocation are
unavailable for these two workers. -/
theorem c8_hardcoded_shell_doexec (tile : String) (tiles : DbTilesAHN) (d : DirOutput)
    (pathExecutable tinsimp outFormat outFormatExt : String) (ignoreDoexec : Bool)
    (runner : RunnerOutcome) (fs : List String)
    (hlen : 2 ≤ (tiles.elevationFileIndex tile).length)
    (hdir : tiles.output.dir = some d) :
    (∃ c, (ThreedfierWorker.execute tile tiles pathExecutable ignoreDoexec
          runner fs).call = some c ∧ c.shell = true ∧ c.doexec = true) ∧
      ∃ c, (ThreedfierTINWorker.execute tile tiles tinsimp outFormat outFormatExt
          pathExecutable ignoreDoexec runner fs).call = some c ∧
        c.shell = true ∧ c.doexec = true := by
  have h0 : ¬((tiles.elevationFileIndex tile).length = 0) := by omega
  obtain ⟨y, hy, _⟩ :=
    create_yaml_ok_of_two_le tile tiles (tiles.elevationFileIndex tile) hlen
  obtain ⟨z, hz⟩ :=
    tin_create_yaml_ok_of_two_le tile tiles (tiles.elevationFileIndex tile) tinsimp hlen
  constructor
  · simp only [ThreedfierWorker.execute, if_neg h0, hy, hdir]
    exact ⟨_, rfl, rfl, rfl⟩
  · simp only [ThreedfierTINWorker.execute, if_neg h0, hz, hdir]
    exact ⟨_, rfl, rfl, rfl⟩

/-- Witness for C8 (amended): at a concrete two-entry configuration, the
surface worker's runner call carries shell and doexec both true, even though
the caller passed doexec false. -/
theorem c8_hardcoded_shell_doexec_witness :
    ((ThreedfierWorker.execute "t1" (tilesWith [("/d/a.las", 2), ("/d/b.las", 3)])
        "3dfier" false RunnerOutcome.success []).call.map
      (fun c => (c.shell, c.doexec))) = some (true, true) := by
  obtain ⟨⟨c, hc, hs, hd⟩, _⟩ :=
    c8_hardcoded_shell_doexec "t1" (tilesWith [("/d/a.las", 2), ("/d/b.las", 3)])
      sampleDir "3dfier" "0.1" "CSV" "csv" false RunnerOutcome.success []
      (by decide) rfl
  rw [hc]
  simp [hs, hd]

end TileProc
